import Mathlib

/-!
Shallow embedding of bootstrap/cmd/bootstrap/app/kfctlClient.go.

The file models the KfctlClient: construction (NewKfctlClient), the
rate-limiter middleware shared by the create and get endpoints, the
bounded constant-interval retry loop of CreateDeployment (the
backoff.Retry call with ConstantBackOff of 2 seconds wrapped in
WithMaxRetries 30), the single-shot GetLatestKfdef, and the
type-assertion based classification of decoded responses that both
operations perform.

The transport itself (HTTP round trips, encoding and decoding) is an
external collaborator; it is modelled as an oracle giving the outcome
of the k-th HTTP round trip. The rate limiter of golang.org/x/time is
modelled as a token pool consumed on admission; limiter instances are
identified by a numeric id so that sharing one limiter between the two
endpoints is an explicit, provable fact.
-/

namespace KfctlApp

/-- Domain entity kfdefs.KfDef: opaque request/response payload of the
client; only its identity matters to the client code, so it is modelled
as a record of opaque strings. -/
structure KfDef where
  name : String
  appSpec : String
deriving DecidableEq

/-- Structured remote error type httpError of package app (declared in a
sibling file of the repository). Modelled from the spec: it carries at
minimum a human-readable message and is usable as an error value. -/
structure httpError where
  code : Nat
  message : String
deriving DecidableEq

/-- Raw decoded response value: the dynamic type of the interface value
returned by the decoder. A Go interface value has exactly one dynamic
type, so the three shapes the client tests for are disjoint variants:
a KfDef pointer, an httpError pointer, or any other value, which the
client only ever observes through its rendering. -/
inductive RespValue where
  | kfdef (d : KfDef)
  | httpErr (e : httpError)
  | other (raw : String)
deriving DecidableEq

/-- Transport-level error: the non-nil error returned by an endpoint
invocation. rateLimited is produced by the ErroringLimiter middleware,
contextCanceled by the HTTP transport when the request context is done,
and transport k stands for the connection or decoding failure of the
k-th HTTP round trip. -/
inductive EndpointError where
  | rateLimited
  | contextCanceled
  | transport (k : Nat)
deriving DecidableEq

/-- Error values a public operation can return: the propagated endpoint
error (permErr in the source), the structured httpError, or the generic
unexpected-response error built with fmt.Errorf. -/
inductive GoError where
  | endpointErr (e : EndpointError)
  | httpError (e : httpError)
  | unexpected (msg : String)
deriving DecidableEq

/-- Pair of Go return values (ptr, err) of CreateDeployment and
GetLatestKfdef, kept as a pair of options so that the exactly-one-of
discipline is a theorem rather than a typing artifact. -/
abbrev GoReturn := Option KfDef × Option GoError

/-- Outcome of one endpoint invocation: either a non-nil error or a
decoded response value with nil error. -/
inductive AttemptOutcome where
  | failure (e : EndpointError)
  | response (v : RespValue)
deriving DecidableEq

/-- Transport oracle: the outcome the remote side produces for the k-th
HTTP round trip issued for a given request payload. The oracle abstracts
the encode, transmit and decode pipeline, which is external to this
client. -/
abbrev Oracle := KfDef → Nat → AttemptOutcome

/-- Request context: the only observation the client code makes of it is
whether it is already cancelled or expired. -/
structure Ctx where
  canceled : Bool
deriving DecidableEq

/-- Context passed by callers that is still live. -/
def liveCtx : Ctx := { canceled := false }

/-- context.Background, used by GetLatestKfdef. -/
def backgroundCtx : Ctx := { canceled := false }

/-- Mutable system state threaded through invocations: the token pools
of the allocated rate limiters (by limiter id) and the number of HTTP
round trips issued so far. -/
structure SysState where
  tokens : Nat → Nat
  transportCalls : Nat

/-- State at client creation: every limiter allocated by NewKfctlClient
is a rate.NewLimiter with burst 100, so its pool starts at 100 tokens;
no HTTP round trip has been issued yet. -/
def freshState : SysState :=
  { tokens := fun _ => 100, transportCalls := 0 }

/-- URL record: what the client observes of a parsed net/url URL. -/
structure URL where
  scheme : String
  host : String
  path : String
deriving DecidableEq

/-- Prefix test on character lists, mirroring the strings HasPrefix
test of the source (the core library string functions do not reduce in
the kernel, so the client works on the underlying character lists). -/
def listStarts : List Char → List Char → Bool
  | _, [] => true
  | [], _ :: _ => false
  | c :: cs, p :: ps => (c == p) && listStarts cs ps

/-- Split a character list at the first occurrence of the literal
scheme separator, when there is one. -/
def splitSchemeSep : List Char → Option (List Char × List Char)
  | [] => none
  | ':' :: '/' :: '/' :: rest => some ([], rest)
  | c :: cs =>
      match splitSchemeSep cs with
      | none => none
      | some (a, b) => some (c :: a, b)

/-- Model of net/url Parse restricted to what NewKfctlClient observes.
The Go parser rejects ASCII control characters in the URL; otherwise it
splits an explicit scheme at the first scheme separator, and a string
with no separator parses successfully with an empty scheme. -/
def urlParse (s : String) : Except String URL :=
  if s.data.any (fun c => c.toNat < 32) then
    Except.error "net/url: invalid control character in URL"
  else
    match splitSchemeSep s.data with
    | some (sch, rest) =>
        Except.ok { scheme := String.mk sch,
                    host := String.mk (rest.takeWhile (fun c => c != '/')),
                    path := String.mk (rest.dropWhile (fun c => c != '/')) }
    | none =>
        Except.ok { scheme := "", host := "", path := s }

/-- Modelled from the spec: KfctlCreatePath, the per-operation path
constant for the create-deployment operation; declared elsewhere in the
repository (only its use sites appear in the source under scrutiny). -/
def KfctlCreatePath : String := "/kfctl/apps/v1alpha2/create"

/-- Modelled from the spec: copyURL, declared elsewhere in the
repository, returns a copy of the base URL with its path replaced by
the per-operation path. -/
def copyURL (base : URL) (path : String) : URL :=
  { base with path := path }

/-- One composed client endpoint: the httptransport client (method and
target URL) wrapped by the erroring rate limiter identified by
limiterId. -/
structure ClientEndpoint where
  method : String
  url : URL
  limiterId : Nat
deriving DecidableEq

/-- KfctlClient record holding the two composed endpoints. -/
structure KfctlClient where
  createEndpoint : ClientEndpoint
  getEndpoint : ClientEndpoint
deriving DecidableEq

/-- Body of NewKfctlClient after the URL is parsed: both endpoints are
POST httptransport clients at copyURL u KfctlCreatePath, wrapped by the
single limiter allocated for this client (id 0). -/
def mkKfctlClient (u : URL) : KfctlClient :=
  { createEndpoint :=
      { method := "POST", url := copyURL u KfctlCreatePath, limiterId := 0 },
    getEndpoint :=
      { method := "POST", url := copyURL u KfctlCreatePath, limiterId := 0 } }

/-- The quick sanitize step of NewKfctlClient: prepend the literal
string http:// when the instance does not already start with http. -/
def normalizeInstance (addr : String) : String :=
  if listStarts addr.data "http".data then addr else "http://" ++ addr

/-- NewKfctlClient: sanitize the instance address, parse it, and on
success build the client with both endpoints sharing one limiter. -/
def NewKfctlClient (addr : String) : Except String KfctlClient :=
  match urlParse (normalizeInstance addr) with
  | Except.error e => Except.error e
  | Except.ok u => Except.ok (mkKfctlClient u)

/-- One invocation of a composed endpoint. The erroring limiter runs
first: with no token left it rejects with a rate-limit error and the
wrapped transport is not invoked (the state is untouched). Otherwise a
token is consumed; the HTTP transport then observes the request context
and returns its cancellation error without a round trip if the context
is done, else it performs the next HTTP round trip, whose outcome the
oracle supplies. -/
def invokeEndpoint (ep : ClientEndpoint) (oracle : Oracle) (req : KfDef)
    (ctx : Ctx) (st : SysState) : AttemptOutcome × SysState :=
  match st.tokens ep.limiterId with
  | 0 => (AttemptOutcome.failure EndpointError.rateLimited, st)
  | t + 1 =>
      let st1 : SysState :=
        { tokens := fun i => if i = ep.limiterId then t else st.tokens i,
          transportCalls := st.transportCalls }
      if ctx.canceled then
        (AttemptOutcome.failure EndpointError.contextCanceled, st1)
      else
        (oracle req st1.transportCalls,
         { st1 with transportCalls := st1.transportCalls + 1 })

/-- Interval of the ConstantBackOff, in seconds: 2 * time.Second. -/
def retryInterval : Nat := 2

/-- Retry budget of backoff.WithMaxRetries: up to 30 retries after the
initial attempt. -/
def createMaxRetries : Nat := 30

/-- Observable event of the retry loop: one operation invocation with
its outcome, or one blocking wait of the given number of seconds. -/
inductive RetryEvent where
  | attempt (out : AttemptOutcome)
  | wait (seconds : Nat)
deriving DecidableEq

/-- Result of running the retry loop: the value backoff.Retry leaves in
resp or returns as permErr, the ordered trace of events, and the final
system state. -/
structure RetryRun where
  result : Except EndpointError RespValue
  events : List RetryEvent
  state : SysState

/-- backoff.Retry over WithMaxRetries(ConstantBackOff(2s), retriesLeft):
invoke the operation; a nil error (decoded response) stops immediately;
a non-nil error consumes one retry, waits the constant interval and
tries again, until NextBackOff returns Stop, at which point the last
error is returned. The caller context is not consulted by the loop
itself, because the BackOff handed to backoff.Retry carries no context. -/
def backoffRetry (ep : ClientEndpoint) (oracle : Oracle) (req : KfDef)
    (ctx : Ctx) : Nat → SysState → RetryRun
  | 0, st =>
      let p := invokeEndpoint ep oracle req ctx st
      match p.1 with
      | AttemptOutcome.response v =>
          { result := Except.ok v,
            events := [RetryEvent.attempt (AttemptOutcome.response v)],
            state := p.2 }
      | AttemptOutcome.failure e =>
          { result := Except.error e,
            events := [RetryEvent.attempt (AttemptOutcome.failure e)],
            state := p.2 }
  | r + 1, st =>
      let p := invokeEndpoint ep oracle req ctx st
      match p.1 with
      | AttemptOutcome.response v =>
          { result := Except.ok v,
            events := [RetryEvent.attempt (AttemptOutcome.response v)],
            state := p.2 }
      | AttemptOutcome.failure e =>
          let rest := backoffRetry ep oracle req ctx r p.2
          { result := rest.result,
            events := RetryEvent.attempt (AttemptOutcome.failure e)
              :: RetryEvent.wait retryInterval :: rest.events,
            state := rest.state }

/-- Modelled from the spec: Pformat, declared elsewhere in the
repository, renders a human-readable diagnostic of a raw value; an
unrecognized value is observed only through this rendering. -/
def Pformat : RespValue → String
  | RespValue.kfdef d => d.name
  | RespValue.httpErr e => e.message
  | RespValue.other raw => raw

/-- Message of the fmt.Errorf call on the unexpected-response branch,
including the spelling of the source. -/
def unexpectedMsg (v : RespValue) : String :=
  "Recieved unexpected response; " ++ Pformat v

/-- Classification shared verbatim by CreateDeployment and
GetLatestKfdef: first the type assertion to a KfDef pointer, then the
type assertion to an httpError pointer, finally the generic
unexpected-response error wrapping the rendering of the raw value. -/
def classify (resp : RespValue) : GoReturn :=
  match resp with
  | RespValue.kfdef response => (some response, none)
  | RespValue.httpErr resErr => (none, some (GoError.httpError resErr))
  | v => (none, some (GoError.unexpected (unexpectedMsg v)))

/-- The retry loop run performed by CreateDeployment. -/
def createRun (c : KfctlClient) (oracle : Oracle) (req : KfDef)
    (ctx : Ctx) (st : SysState) : RetryRun :=
  backoffRetry c.createEndpoint oracle req ctx createMaxRetries st

/-- CreateDeployment: run the retry loop; a non-nil permErr is returned
as is with a nil result; otherwise the decoded response is classified
exactly once. -/
def CreateDeployment (c : KfctlClient) (oracle : Oracle) (req : KfDef)
    (ctx : Ctx) (st : SysState) : GoReturn :=
  match (createRun c oracle req ctx st).result with
  | Except.error permErr => (none, some (GoError.endpointErr permErr))
  | Except.ok resp => classify resp

/-- The single endpoint invocation performed by GetLatestKfdef, issued
under context.Background. -/
def getRun (c : KfctlClient) (oracle : Oracle) (req : KfDef)
    (st : SysState) : AttemptOutcome × SysState :=
  invokeEndpoint c.getEndpoint oracle req backgroundCtx st

/-- GetLatestKfdef: one invocation, no retry; a non-nil error is
returned directly, a decoded response is classified. -/
def GetLatestKfdef (c : KfctlClient) (oracle : Oracle) (req : KfDef)
    (st : SysState) : GoReturn :=
  match (getRun c oracle req st).1 with
  | AttemptOutcome.failure e => (none, some (GoError.endpointErr e))
  | AttemptOutcome.response v => classify v

/-- Marker for counting operation invocations in a trace. -/
def isAttempt : RetryEvent → Bool
  | RetryEvent.attempt _ => true
  | RetryEvent.wait _ => false

/-- Number of operation invocations a retry run performed. -/
def attemptsOf (run : RetryRun) : Nat :=
  run.events.countP isAttempt

/-- Seconds one event spends waiting. -/
def waitTime : RetryEvent → Nat
  | RetryEvent.wait s => s
  | RetryEvent.attempt _ => 0

/-- Total seconds a trace spends in blocking interval waits. -/
def totalWait (evs : List RetryEvent) : Nat :=
  (evs.map waitTime).sum

/-- A trace is well spaced when every two consecutive operation
invocations are separated by exactly one wait of the constant retry
interval. -/
def wellSpaced : List RetryEvent → Bool
  | [] => true
  | RetryEvent.wait _ :: _ => false
  | RetryEvent.attempt _ :: rest =>
      match rest with
      | [] => true
      | RetryEvent.attempt _ :: _ => false
      | RetryEvent.wait s :: rest2 => (s == retryInterval) && wellSpaced rest2

/-- Oracle of a remote side that answers every round trip with the same
decoded value. -/
def respOracle (v : RespValue) : Oracle := fun _ _ => AttemptOutcome.response v

/-- Oracle of a remote side whose k-th round trip fails with transport
error f k. -/
def failOracle (f : Nat → Nat) : Oracle :=
  fun _ k => AttemptOutcome.failure (EndpointError.transport (f k))

/-- Oracle whose every round trip fails, with distinguishable errors. -/
def alwaysFail : Oracle :=
  fun _ k => AttemptOutcome.failure (EndpointError.transport k)

/-- Concrete payload used by witnesses. -/
def req0 : KfDef := { name := "kf-app", appSpec := "v1" }

/-- URL that NewKfctlClient derives from the instance example.com. -/
def exURL : URL := { scheme := "http", host := "example.com", path := "" }

/-- Client built for the instance example.com. -/
def exClient : KfctlClient := mkKfctlClient exURL

/-- State whose limiter pools are empty, for rate-limit scenarios. -/
def drainedState : SysState :=
  { tokens := fun _ => 0, transportCalls := 0 }

/-- Projection used by closed counterexamples: the scheme of the create
endpoint URL of a constructed client, when construction succeeded. -/
def constructedCreateScheme (r : Except String KfctlClient) : Option String :=
  match r with
  | Except.error _ => none
  | Except.ok c => some c.createEndpoint.url.scheme

/-- Projection used by closed counterexamples: the pair of endpoint URLs
of a constructed client, when construction succeeded. -/
def constructedURLs (r : Except String KfctlClient) : Option (URL × URL) :=
  match r with
  | Except.error _ => none
  | Except.ok c => some (c.createEndpoint.url, c.getEndpoint.url)

example : NewKfctlClient "example.com" = Except.ok exClient := rfl
example : attemptsOf (createRun exClient (respOracle (RespValue.kfdef req0))
    req0 liveCtx freshState) = 1 := by decide

/-! Helper lemmas about one endpoint invocation and the retry loop. -/

lemma invoke_drained (ep : ClientEndpoint) (oracle : Oracle) (req : KfDef)
    (ctx : Ctx) (st : SysState) (h : st.tokens ep.limiterId = 0) :
    invokeEndpoint ep oracle req ctx st
      = (AttemptOutcome.failure EndpointError.rateLimited, st) := by
  unfold invokeEndpoint
  rw [h]

lemma invoke_canceled_fails (ep : ClientEndpoint) (oracle : Oracle) (req : KfDef)
    (st : SysState) :
    ∃ e, (invokeEndpoint ep oracle req (Ctx.mk true) st).1
      = AttemptOutcome.failure e := by
  cases h : st.tokens ep.limiterId with
  | zero => exact ⟨EndpointError.rateLimited, by simp [invokeEndpoint, h]⟩
  | succ t => exact ⟨EndpointError.contextCanceled, by simp [invokeEndpoint, h]⟩

lemma backoffRetry_response (ep : ClientEndpoint) (oracle : Oracle) (req : KfDef)
    (ctx : Ctx) (r : Nat) (st : SysState) (v : RespValue)
    (h : (invokeEndpoint ep oracle req ctx st).1 = AttemptOutcome.response v) :
    backoffRetry ep oracle req ctx r st
      = { result := Except.ok v,
          events := [RetryEvent.attempt (AttemptOutcome.response v)],
          state := (invokeEndpoint ep oracle req ctx st).2 } := by
  cases r <;> simp [backoffRetry, h]

lemma backoffRetry_failure_zero (ep : ClientEndpoint) (oracle : Oracle)
    (req : KfDef) (ctx : Ctx) (st : SysState) (e : EndpointError)
    (h : (invokeEndpoint ep oracle req ctx st).1 = AttemptOutcome.failure e) :
    backoffRetry ep oracle req ctx 0 st
      = { result := Except.error e,
          events := [RetryEvent.attempt (AttemptOutcome.failure e)],
          state := (invokeEndpoint ep oracle req ctx st).2 } := by
  simp [backoffRetry, h]

lemma backoffRetry_failure_succ (ep : ClientEndpoint) (oracle : Oracle)
    (req : KfDef) (ctx : Ctx) (r : Nat) (st : SysState) (e : EndpointError)
    (h : (invokeEndpoint ep oracle req ctx st).1 = AttemptOutcome.failure e) :
    backoffRetry ep oracle req ctx (r + 1) st
      = { result := (backoffRetry ep oracle req ctx r
            (invokeEndpoint ep oracle req ctx st).2).result,
          events := RetryEvent.attempt (AttemptOutcome.failure e)
            :: RetryEvent.wait retryInterval
            :: (backoffRetry ep oracle req ctx r
                  (invokeEndpoint ep oracle req ctx st).2).events,
          state := (backoffRetry ep oracle req ctx r
            (invokeEndpoint ep oracle req ctx st).2).state } := by
  simp [backoffRetry, h]

lemma attemptsOf_cons_attempt (out : AttemptOutcome) (evs : List RetryEvent)
    (st : SysState) (res : Except EndpointError RespValue) :
    attemptsOf { result := res, events := RetryEvent.attempt out :: evs,
                 state := st }
      = attemptsOf (RetryRun.mk res evs st) + 1 := by
  simp [attemptsOf, List.countP_cons, isAttempt]

lemma totalWait_cons (ev : RetryEvent) (evs : List RetryEvent) :
    totalWait (ev :: evs) = waitTime ev + totalWait evs := by
  simp [totalWait]

lemma backoffRetry_attempts_le (ep : ClientEndpoint) (oracle : Oracle)
    (req : KfDef) (ctx : Ctx) :
    ∀ r st, attemptsOf (backoffRetry ep oracle req ctx r st) ≤ r + 1 := by
  intro r
  induction r with
  | zero =>
      intro st
      cases h : (invokeEndpoint ep oracle req ctx st).1 with
      | failure e =>
          rw [backoffRetry_failure_zero ep oracle req ctx st e h]
          simp [attemptsOf, List.countP_cons, isAttempt]
      | response v =>
          rw [backoffRetry_response ep oracle req ctx 0 st v h]
          simp [attemptsOf, List.countP_cons, isAttempt]
  | succ r ih =>
      intro st
      cases h : (invokeEndpoint ep oracle req ctx st).1 with
      | response v =>
          rw [backoffRetry_response ep oracle req ctx (r + 1) st v h]
          simp [attemptsOf, List.countP_cons, isAttempt]
      | failure e =>
          rw [backoffRetry_failure_succ ep oracle req ctx r st e h]
          have hrec := ih (invokeEndpoint ep oracle req ctx st).2
          simp [attemptsOf, List.countP_cons, isAttempt] at hrec ⊢
          omega

lemma backoffRetry_wellSpaced (ep : ClientEndpoint) (oracle : Oracle)
    (req : KfDef) (ctx : Ctx) :
    ∀ r st, wellSpaced (backoffRetry ep oracle req ctx r st).events = true := by
  intro r
  induction r with
  | zero =>
      intro st
      cases h : (invokeEndpoint ep oracle req ctx st).1 with
      | failure e =>
          rw [backoffRetry_failure_zero ep oracle req ctx st e h]
          simp [wellSpaced]
      | response v =>
          rw [backoffRetry_response ep oracle req ctx 0 st v h]
          simp [wellSpaced]
  | succ r ih =>
      intro st
      cases h : (invokeEndpoint ep oracle req ctx st).1 with
      | response v =>
          rw [backoffRetry_response ep oracle req ctx (r + 1) st v h]
          simp [wellSpaced]
      | failure e =>
          rw [backoffRetry_failure_succ ep oracle req ctx r st e h]
          simp [wellSpaced]
          exact ih (invokeEndpoint ep oracle req ctx st).2

lemma backoffRetry_drained (ep : ClientEndpoint) (oracle : Oracle)
    (req : KfDef) (ctx : Ctx) (st : SysState)
    (h : st.tokens ep.limiterId = 0) :
    ∀ r, (backoffRetry ep oracle req ctx r st).result
          = Except.error EndpointError.rateLimited ∧
        (backoffRetry ep oracle req ctx r st).state = st ∧
        attemptsOf (backoffRetry ep oracle req ctx r st) = r + 1 := by
  have hi := invoke_drained ep oracle req ctx st h
  have h1 : (invokeEndpoint ep oracle req ctx st).1
      = AttemptOutcome.failure EndpointError.rateLimited := by rw [hi]
  have h2 : (invokeEndpoint ep oracle req ctx st).2 = st := by rw [hi]
  intro r
  induction r with
  | zero =>
      rw [backoffRetry_failure_zero ep oracle req ctx st _ h1]
      exact ⟨rfl, h2, by simp [attemptsOf, List.countP_cons, isAttempt]⟩
  | succ r ih =>
      rw [backoffRetry_failure_succ ep oracle req ctx r st _ h1, h2]
      obtain ⟨ihr, ihs, iha⟩ := ih
      refine ⟨?_, ?_, ?_⟩
      · exact ihr
      · exact ihs
      · simp [attemptsOf, List.countP_cons, isAttempt] at iha ⊢
        omega

lemma backoffRetry_canceled (ep : ClientEndpoint) (oracle : Oracle)
    (req : KfDef) :
    ∀ r st,
      (∃ e, (backoffRetry ep oracle req (Ctx.mk true) r st).result
        = Except.error e) ∧
      attemptsOf (backoffRetry ep oracle req (Ctx.mk true) r st) = r + 1 ∧
      totalWait (backoffRetry ep oracle req (Ctx.mk true) r st).events
        = r * retryInterval := by
  intro r
  induction r with
  | zero =>
      intro st
      obtain ⟨e, he⟩ := invoke_canceled_fails ep oracle req st
      rw [backoffRetry_failure_zero ep oracle req (Ctx.mk true) st e he]
      refine ⟨⟨e, rfl⟩, ?_, ?_⟩
      · simp [attemptsOf, List.countP_cons, isAttempt]
      · simp [totalWait, waitTime]
  | succ r ih =>
      intro st
      obtain ⟨e, he⟩ := invoke_canceled_fails ep oracle req st
      rw [backoffRetry_failure_succ ep oracle req (Ctx.mk true) r st e he]
      obtain ⟨⟨e2, he2⟩, iha, ihw⟩ :=
        ih (invokeEndpoint ep oracle req (Ctx.mk true) st).2
      refine ⟨⟨e2, he2⟩, ?_, ?_⟩
      · simp [attemptsOf, List.countP_cons, isAttempt] at iha ⊢
        omega
      · show totalWait (RetryEvent.attempt (AttemptOutcome.failure e)
            :: RetryEvent.wait retryInterval
            :: (backoffRetry ep oracle req (Ctx.mk true) r
                  (invokeEndpoint ep oracle req (Ctx.mk true) st).2).events)
          = (r + 1) * retryInterval
        rw [totalWait_cons, totalWait_cons, ihw]
        simp [waitTime, retryInterval]
        omega

lemma invoke_live_tokens (ep : ClientEndpoint) (oracle : Oracle) (req : KfDef)
    (st : SysState) (t : Nat) (h : st.tokens ep.limiterId = t + 1) :
    invokeEndpoint ep oracle req liveCtx st
      = (oracle req st.transportCalls,
         { tokens := fun i => if i = ep.limiterId then t else st.tokens i,
           transportCalls := st.transportCalls + 1 }) := by
  unfold invokeEndpoint
  rw [h]
  simp [liveCtx]

lemma backoffRetry_failOracle_result (ep : ClientEndpoint) (f : Nat → Nat)
    (req : KfDef) :
    ∀ r st, r < st.tokens ep.limiterId →
      (backoffRetry ep (failOracle f) req liveCtx r st).result
        = Except.error (EndpointError.transport (f (st.transportCalls + r))) := by
  intro r
  induction r with
  | zero =>
      intro st h
      cases htok : st.tokens ep.limiterId with
      | zero => rw [htok] at h; omega
      | succ t =>
          have hi := invoke_live_tokens ep (failOracle f) req st t htok
          have h1 : (invokeEndpoint ep (failOracle f) req liveCtx st).1
              = AttemptOutcome.failure
                  (EndpointError.transport (f st.transportCalls)) := by
            rw [hi]; rfl
          rw [backoffRetry_failure_zero ep (failOracle f) req liveCtx st _ h1]
          simp
  | succ r ih =>
      intro st h
      cases htok : st.tokens ep.limiterId with
      | zero => rw [htok] at h; omega
      | succ t =>
          have hi := invoke_live_tokens ep (failOracle f) req st t htok
          have h1 : (invokeEndpoint ep (failOracle f) req liveCtx st).1
              = AttemptOutcome.failure
                  (EndpointError.transport (f st.transportCalls)) := by
            rw [hi]; rfl
          have h2 : (invokeEndpoint ep (failOracle f) req liveCtx st).2
              = { tokens := fun i => if i = ep.limiterId then t else st.tokens i,
                  transportCalls := st.transportCalls + 1 } := by
            rw [hi]
          rw [backoffRetry_failure_succ ep (failOracle f) req liveCtx r st _ h1,
            h2]
          have hrec := ih
            { tokens := fun i => if i = ep.limiterId then t else st.tokens i,
              transportCalls := st.transportCalls + 1 }
            (by rw [htok] at h; simp; omega)
          show (backoffRetry ep (failOracle f) req liveCtx r
              { tokens := fun i => if i = ep.limiterId then t else st.tokens i,
                transportCalls := st.transportCalls + 1 }).result
            = Except.error
                (EndpointError.transport (f (st.transportCalls + (r + 1))))
          rw [hrec]
          have harg : st.transportCalls + 1 + r = st.transportCalls + (r + 1) := by
            omega
          rw [harg]

/-- A Go return pair carries exactly one of a non-nil result or a
non-nil error. -/
def exactlyOne (r : GoReturn) : Prop :=
  (r.1 ≠ none ∧ r.2 = none) ∨ (r.1 = none ∧ r.2 ≠ none)

lemma classify_exactlyOne (v : RespValue) : exactlyOne (classify v) := by
  cases v <;> simp [classify, exactlyOne]

/-! Claim theorems. -/

/-- Claim C1: the retry loop of CreateDeployment retries an attempt if
and only if the endpoint invocation returned a non-nil transport-level
error; any decoded response value ends the loop immediately with that
value, classification happens exactly once after the loop exits, and a
first attempt that returns a decodable success payload makes
CreateDeployment return exactly that KfDef after a single attempt. -/
theorem createDeployment_retries_only_on_transport_error :
    (∀ ep oracle req ctx r st v,
        (invokeEndpoint ep oracle req ctx st).1 = AttemptOutcome.response v →
        backoffRetry ep oracle req ctx r st
          = { result := Except.ok v,
              events := [RetryEvent.attempt (AttemptOutcome.response v)],
              state := (invokeEndpoint ep oracle req ctx st).2 }) ∧
    (∀ ep oracle req ctx r st e,
        (invokeEndpoint ep oracle req ctx st).1 = AttemptOutcome.failure e →
        backoffRetry ep oracle req ctx (r + 1) st
          = { result := (backoffRetry ep oracle req ctx r
                (invokeEndpoint ep oracle req ctx st).2).result,
              events := RetryEvent.attempt (AttemptOutcome.failure e)
                :: RetryEvent.wait retryInterval
                :: (backoffRetry ep oracle req ctx r
                      (invokeEndpoint ep oracle req ctx st).2).events,
              state := (backoffRetry ep oracle req ctx r
                (invokeEndpoint ep oracle req ctx st).2).state }) ∧
    (∀ c oracle req ctx st,
        CreateDeployment c oracle req ctx st
          = match (createRun c oracle req ctx st).result with
            | Except.error permErr => (none, some (GoError.endpointErr permErr))
            | Except.ok resp => classify resp) ∧
    (∀ c req d,
        CreateDeployment c (respOracle (RespValue.kfdef d)) req liveCtx
            freshState = (some d, none) ∧
        attemptsOf (createRun c (respOracle (RespValue.kfdef d)) req liveCtx
            freshState) = 1) := by
  refine ⟨backoffRetry_response, backoffRetry_failure_succ, ?_, ?_⟩
  · intro c oracle req ctx st
    rfl
  · intro c req d
    exact ⟨rfl, rfl⟩

/-- Witness for C1: the response-terminates, failure-retries and
first-attempt-success parts at concrete inputs. -/
theorem createDeployment_retries_only_on_transport_error_witness :
    backoffRetry exClient.createEndpoint (respOracle (RespValue.kfdef req0))
        req0 liveCtx 5 freshState
      = { result := Except.ok (RespValue.kfdef req0),
          events := [RetryEvent.attempt
            (AttemptOutcome.response (RespValue.kfdef req0))],
          state := (invokeEndpoint exClient.createEndpoint
            (respOracle (RespValue.kfdef req0)) req0 liveCtx freshState).2 } ∧
    backoffRetry exClient.createEndpoint alwaysFail req0 liveCtx (4 + 1)
        freshState
      = { result := (backoffRetry exClient.createEndpoint alwaysFail req0
            liveCtx 4 (invokeEndpoint exClient.createEndpoint alwaysFail req0
              liveCtx freshState).2).result,
          events := RetryEvent.attempt
              (AttemptOutcome.failure (EndpointError.transport 0))
            :: RetryEvent.wait retryInterval
            :: (backoffRetry exClient.createEndpoint alwaysFail req0 liveCtx 4
                  (invokeEndpoint exClient.createEndpoint alwaysFail req0
                    liveCtx freshState).2).events,
          state := (backoffRetry exClient.createEndpoint alwaysFail req0
            liveCtx 4 (invokeEndpoint exClient.createEndpoint alwaysFail req0
              liveCtx freshState).2).state } ∧
    CreateDeployment exClient (respOracle (RespValue.kfdef req0)) req0 liveCtx
        freshState = (some req0, none) := by
  refine ⟨?_, ?_, ?_⟩
  · exact createDeployment_retries_only_on_transport_error.1
      exClient.createEndpoint (respOracle (RespValue.kfdef req0)) req0 liveCtx
      5 freshState (RespValue.kfdef req0) rfl
  · exact createDeployment_retries_only_on_transport_error.2.1
      exClient.createEndpoint alwaysFail req0 liveCtx 4 freshState
      (EndpointError.transport 0) rfl
  · exact (createDeployment_retries_only_on_transport_error.2.2.2
      exClient req0 req0).1

/-- Claim C2: classification of a raw decoded response is an
exhaustive, ordered three-way branch — a success-shaped value yields
the domain result, an error-shaped value yields that structured error,
and any other value yields a generic unexpected-response error that
wraps a human-readable rendering of the raw value — and both
CreateDeployment and GetLatestKfdef apply this same mapping to a
decoded response. -/
theorem classify_three_way_ordered_shared :
    (∀ d, classify (RespValue.kfdef d) = (some d, none)) ∧
    (∀ e, classify (RespValue.httpErr e)
        = (none, some (GoError.httpError e))) ∧
    (∀ raw, classify (RespValue.other raw)
        = (none, some (GoError.unexpected
            (unexpectedMsg (RespValue.other raw))))) ∧
    (∀ v, (∃ d, v = RespValue.kfdef d)
        ∨ (∃ e, v = RespValue.httpErr e)
        ∨ (∃ raw, v = RespValue.other raw)) ∧
    (∀ c v req,
        CreateDeployment c (respOracle v) req liveCtx freshState = classify v ∧
        GetLatestKfdef c (respOracle v) req freshState = classify v) := by
  refine ⟨fun d => rfl, fun e => rfl, fun raw => rfl, ?_, ?_⟩
  · intro v
    cases v with
    | kfdef d => exact Or.inl ⟨d, rfl⟩
    | httpErr e => exact Or.inr (Or.inl ⟨e, rfl⟩)
    | other raw => exact Or.inr (Or.inr ⟨raw, rfl⟩)
  · intro c v req
    exact ⟨rfl, rfl⟩

/-- Claim C3: when every attempt of CreateDeployment returns a
transport-level error, the call returns a nil result together with the
error of the last attempt (the error of round trip createMaxRetries,
counting the initial attempt as round trip zero). -/
theorem createDeployment_exhaustion_returns_last_transport_error :
    ∀ c f req,
      CreateDeployment c (failOracle f) req liveCtx freshState
        = (none, some (GoError.endpointErr
            (EndpointError.transport (f createMaxRetries)))) := by
  intro c f req
  have hlt : createMaxRetries < freshState.tokens c.createEndpoint.limiterId := by
    simp [freshState, createMaxRetries]
  have h := backoffRetry_failOracle_result c.createEndpoint f req
    createMaxRetries freshState hlt
  have hres : (createRun c (failOracle f) req liveCtx freshState).result
      = Except.error (EndpointError.transport (f createMaxRetries)) := by
    simpa [createRun, freshState] using h
  simp [CreateDeployment, hres]

/-- Claim C10: every return path of CreateDeployment and GetLatestKfdef
produces exactly one of a non-nil result with nil error or a nil result
with a non-nil error. -/
theorem operations_exactly_one_result_or_error :
    ∀ c oracle req ctx st,
      exactlyOne (CreateDeployment c oracle req ctx st) ∧
      exactlyOne (GetLatestKfdef c oracle req st) := by
  intro c oracle req ctx st
  constructor
  · cases h : (createRun c oracle req ctx st).result with
    | error e => simp [CreateDeployment, h, exactlyOne]
    | ok v => simpa [CreateDeployment, h] using classify_exactlyOne v
  · cases h : (getRun c oracle req st).1 with
    | failure e => simp [GetLatestKfdef, h, exactlyOne]
    | response v => simpa [GetLatestKfdef, h] using classify_exactlyOne v

/-- Counterexample to C4 as stated: with a remote that always fails at
transport level, CreateDeployment issues 31 endpoint invocations and 31
HTTP round trips, one more than the configured maximum of 30, because
the budget of backoff.WithMaxRetries counts retries after the initial
attempt. -/
theorem createDeployment_attempt_budget_counterexample :
    attemptsOf (createRun exClient alwaysFail req0 liveCtx freshState) = 31 ∧
    (createRun exClient alwaysFail req0 liveCtx
        freshState).state.transportCalls = 31 ∧
    30 < 31 := by
  exact ⟨by decide, by decide, by omega⟩

/-- Claim C4 (amended): CreateDeployment issues at most
createMaxRetries + 1 = 31 endpoint invocations — one initial attempt
plus the configured maximum of 30 retries — and between any two
consecutive attempts the loop waits exactly the constant 2-second
interval. -/
theorem createDeployment_attempt_bound_and_interval :
    ∀ c oracle req ctx st,
      attemptsOf (createRun c oracle req ctx st) ≤ createMaxRetries + 1 ∧
      wellSpaced (createRun c oracle req ctx st).events = true := by
  intro c oracle req ctx st
  exact ⟨backoffRetry_attempts_le c.createEndpoint oracle req ctx
           createMaxRetries st,
         backoffRetry_wellSpaced c.createEndpoint oracle req ctx
           createMaxRetries st⟩

/-- Claim C5 is violated by the code: with an already cancelled
context, CreateDeployment still performs the full retry budget —
createMaxRetries + 1 = 31 attempts with createMaxRetries two-second
interval waits, 60 seconds in total — before returning a nil result,
because backoff.Retry is never given the caller context, so the loop
checks no context at the top of its iterations or around the waits;
each attempt merely fails fast inside the transport. -/
theorem createDeployment_cancelled_context_full_budget :
    ∀ c oracle req st,
      attemptsOf (createRun c oracle req (Ctx.mk true) st)
        = createMaxRetries + 1 ∧
      totalWait (createRun c oracle req (Ctx.mk true) st).events
        = createMaxRetries * retryInterval ∧
      (CreateDeployment c oracle req (Ctx.mk true) st).1 = none := by
  intro c oracle req st
  obtain ⟨⟨e, he⟩, ha, hw⟩ := backoffRetry_canceled c.createEndpoint oracle
    req createMaxRetries st
  refine ⟨ha, hw, ?_⟩
  simp [CreateDeployment, createRun, he]

/-- Claim C6: a single rate limiter is shared across both endpoints of
one client, a rejection surfaces an immediate rate-limit error without
invoking the wrapped transport or touching any state, and inside
CreateDeployment each rejection triggers a retry iteration counted
against the attempt budget, so an exhausted limiter yields the full
budget of attempts with zero HTTP round trips. -/
theorem rateLimiter_shared_and_reject_semantics :
    (∀ s c, NewKfctlClient s = Except.ok c →
        c.createEndpoint.limiterId = c.getEndpoint.limiterId) ∧
    (∀ ep oracle req ctx st, st.tokens ep.limiterId = 0 →
        invokeEndpoint ep oracle req ctx st
          = (AttemptOutcome.failure EndpointError.rateLimited, st)) ∧
    (∀ c oracle req ctx st, st.tokens c.createEndpoint.limiterId = 0 →
        CreateDeployment c oracle req ctx st
          = (none, some (GoError.endpointErr EndpointError.rateLimited)) ∧
        attemptsOf (createRun c oracle req ctx st) = createMaxRetries + 1 ∧
        (createRun c oracle req ctx st).state.transportCalls
          = st.transportCalls) := by
  refine ⟨?_, invoke_drained, ?_⟩
  · intro s c h
    unfold NewKfctlClient at h
    cases hp : urlParse (normalizeInstance s) with
    | error e => rw [hp] at h; simp at h
    | ok u =>
        rw [hp] at h
        simp at h
        subst h
        rfl
  · intro c oracle req ctx st h
    obtain ⟨hr, hs, ha⟩ := backoffRetry_drained c.createEndpoint oracle req
      ctx st h createMaxRetries
    refine ⟨?_, ha, ?_⟩
    · simp [CreateDeployment, createRun, hr]
    · show (backoffRetry c.createEndpoint oracle req ctx createMaxRetries
          st).state.transportCalls = st.transportCalls
      rw [hs]

/-- Witness for C6: the shared limiter id of the client built from
example.com, and the reject behavior on a drained token pool. -/
theorem rateLimiter_shared_and_reject_semantics_witness :
    exClient.createEndpoint.limiterId = exClient.getEndpoint.limiterId ∧
    invokeEndpoint exClient.createEndpoint alwaysFail req0 liveCtx drainedState
      = (AttemptOutcome.failure EndpointError.rateLimited, drainedState) ∧
    CreateDeployment exClient alwaysFail req0 liveCtx drainedState
      = (none, some (GoError.endpointErr EndpointError.rateLimited)) ∧
    attemptsOf (createRun exClient alwaysFail req0 liveCtx drainedState)
      = createMaxRetries + 1 := by
  obtain ⟨h3a, h3b, _⟩ := rateLimiter_shared_and_reject_semantics.2.2 exClient
    alwaysFail req0 liveCtx drainedState rfl
  exact ⟨rateLimiter_shared_and_reject_semantics.1 "example.com" exClient rfl,
         rateLimiter_shared_and_reject_semantics.2.1 exClient.createEndpoint
           alwaysFail req0 liveCtx drainedState rfl,
         h3a, h3b⟩

/-- Claim C7: GetLatestKfdef performs exactly one rate-limited endpoint
invocation with no retry — at most one HTTP round trip is added — a
transport-level error from that single invocation is returned directly,
and a decoded response goes through the same classification and result
mapping as CreateDeployment. -/
theorem getLatestKfdef_single_invocation_classified :
    ∀ c oracle req st,
      (getRun c oracle req st).2.transportCalls ≤ st.transportCalls + 1 ∧
      (∀ e, (getRun c oracle req st).1 = AttemptOutcome.failure e →
          GetLatestKfdef c oracle req st
            = (none, some (GoError.endpointErr e))) ∧
      (∀ v, (getRun c oracle req st).1 = AttemptOutcome.response v →
          GetLatestKfdef c oracle req st = classify v) ∧
      (∀ v, GetLatestKfdef c (respOracle v) req freshState
          = CreateDeployment c (respOracle v) req liveCtx freshState) := by
  intro c oracle req st
  refine ⟨?_, ?_, ?_, ?_⟩
  · cases h : st.tokens c.getEndpoint.limiterId with
    | zero =>
        show (invokeEndpoint c.getEndpoint oracle req backgroundCtx
          st).2.transportCalls ≤ st.transportCalls + 1
        rw [invoke_drained c.getEndpoint oracle req backgroundCtx st h]
        show st.transportCalls ≤ st.transportCalls + 1
        omega
    | succ t =>
        show (invokeEndpoint c.getEndpoint oracle req liveCtx
          st).2.transportCalls ≤ st.transportCalls + 1
        rw [invoke_live_tokens c.getEndpoint oracle req st t h]
  · intro e h
    simp [GetLatestKfdef, h]
  · intro v h
    simp [GetLatestKfdef, h]
  · intro v
    rfl

/-- Witness for C7: the single invocation bound, the direct transport
error return and the shared classification at concrete inputs. -/
theorem getLatestKfdef_single_invocation_classified_witness :
    (getRun exClient alwaysFail req0 freshState).2.transportCalls
      ≤ freshState.transportCalls + 1 ∧
    GetLatestKfdef exClient alwaysFail req0 freshState
      = (none, some (GoError.endpointErr (EndpointError.transport 0))) ∧
    GetLatestKfdef exClient
        (respOracle (RespValue.httpErr (httpError.mk 403 "quota exceeded")))
        req0 freshState
      = classify (RespValue.httpErr (httpError.mk 403 "quota exceeded")) := by
  obtain ⟨h1, h2, _, _⟩ := getLatestKfdef_single_invocation_classified
    exClient alwaysFail req0 freshState
  obtain ⟨_, _, h3, _⟩ := getLatestKfdef_single_invocation_classified
    exClient (respOracle (RespValue.httpErr (httpError.mk 403
      "quota exceeded"))) req0 freshState
  exact ⟨h1, h2 (EndpointError.transport 0) rfl,
         h3 (RespValue.httpErr (httpError.mk 403 "quota exceeded")) rfl⟩

/-- Counterexample to C8 as stated: the address httpd.example.com
contains no scheme separator, yet NewKfctlClient does not give it an
http:// prefix — the constructed client URL has an empty scheme —
because the sanitize step only tests whether the address starts with
the four letters http. -/
theorem newKfctlClient_prefix_counterexample :
    splitSchemeSep "httpd.example.com".data = none ∧
    constructedCreateScheme (NewKfctlClient "httpd.example.com")
      = some "" := by
  exact ⟨rfl, rfl⟩

/-- Claim C8 (amended): NewKfctlClient prefixes the literal http://
exactly when the address does not already start with http; it fails
with an error exactly when URL parsing of the normalized address fails,
in which case no client is returned; and when parsing succeeds it
returns the client built on the parsed URL. -/
theorem newKfctlClient_normalization_and_failure :
    (∀ s, listStarts s.data "http".data = false →
        normalizeInstance s = "http://" ++ s) ∧
    (∀ s, listStarts s.data "http".data = true → normalizeInstance s = s) ∧
    (∀ s e, NewKfctlClient s = Except.error e
        ↔ urlParse (normalizeInstance s) = Except.error e) ∧
    (∀ s u, urlParse (normalizeInstance s) = Except.ok u →
        NewKfctlClient s = Except.ok (mkKfctlClient u)) := by
  refine ⟨?_, ?_, ?_, ?_⟩
  · intro s h
    simp [normalizeInstance, h]
  · intro s h
    simp [normalizeInstance, h]
  · intro s e
    unfold NewKfctlClient
    cases hp : urlParse (normalizeInstance s) with
    | error e2 => simp
    | ok u => simp
  · intro s u h
    unfold NewKfctlClient
    rw [h]

/-- Witness for C8: the normalization branches and the successful
construction at concrete addresses. -/
theorem newKfctlClient_normalization_and_failure_witness :
    normalizeInstance "example.com" = "http://" ++ "example.com" ∧
    normalizeInstance "http://example.com" = "http://example.com" ∧
    NewKfctlClient "example.com" = Except.ok (mkKfctlClient exURL) := by
  exact ⟨newKfctlClient_normalization_and_failure.1 "example.com" rfl,
         newKfctlClient_normalization_and_failure.2.1 "http://example.com" rfl,
         newKfctlClient_normalization_and_failure.2.2.2 "example.com" exURL
           rfl⟩

/-- Counterexample to C9 as stated: for the client built from
example.com, the get endpoint targets exactly the same URL as the
create endpoint — the create path — not an operation-specific path of
its own, because both endpoint constructions use KfctlCreatePath. -/
theorem endpoints_same_path_counterexample :
    constructedURLs (NewKfctlClient "example.com")
      = some ({ scheme := "http", host := "example.com",
                path := KfctlCreatePath },
              { scheme := "http", host := "example.com",
                path := KfctlCreatePath }) := by
  rfl

/-- Claim C9 (amended): both remote operations are addressed relative
to the configured base instance address, but the create endpoint and
the get endpoint target the same per-operation path, KfctlCreatePath;
the get endpoint has no operation-specific path of its own. -/
theorem endpoints_path_relative_to_base :
    ∀ s u, urlParse (normalizeInstance s) = Except.ok u →
      ∀ c, NewKfctlClient s = Except.ok c →
        c.createEndpoint.url = copyURL u KfctlCreatePath ∧
        c.getEndpoint.url = copyURL u KfctlCreatePath ∧
        c.getEndpoint.url = c.createEndpoint.url := by
  intro s u hu c hc
  unfold NewKfctlClient at hc
  rw [hu] at hc
  simp at hc
  subst hc
  exact ⟨rfl, rfl, rfl⟩

/-- Witness for C9 (amended): both endpoint URLs of the client built
from example.com equal the create path over the parsed base URL. -/
theorem endpoints_path_relative_to_base_witness :
    exClient.createEndpoint.url = copyURL exURL KfctlCreatePath ∧
    exClient.getEndpoint.url = copyURL exURL KfctlCreatePath ∧
    exClient.getEndpoint.url = exClient.createEndpoint.url :=
  endpoints_path_relative_to_base "example.com" exURL rfl exClient rfl

end KfctlApp
